import Mathlib

/-!
Verification of the datacommonsorg/mixer operational scripts, centred on the
response-comparison tool `tools/migration_testing/compare_responses.py` and the
descriptor loader of `tools/benchmark/dc_api_latency_test.py`.

The Python values that flow through these scripts (parsed JSON bodies, request
payload dictionaries, descriptor entries) are embedded as the inductive type
`Json`.  Python semantics used by the scripts — `==` on parsed JSON values,
`len`, `str`, `in`, dictionary item assignment, `str.split` — are embedded as
executable functions over `Json`.  The network and the file system are
parameters (environments) of the embedded drivers.
-/

set_option maxRecDepth 8000

/-- Parsed JSON values, the Python values produced by `response.json()` /
`json.load`.  Python dictionaries are association lists in insertion order
(keys are unique in every value produced by a JSON parser); Python `True/False`
and `None` are separate constructors, numbers are modelled as integers. -/
inductive Json where
  | null
  | bool (b : Bool)
  | num (n : Int)
  | str (s : String)
  | arr (xs : List Json)
  | obj (kvs : List (String × Json))

/-- Python dictionary lookup on an association list (keys unique). -/
def lookupKey (k : String) : List (String × Json) → Option Json
  | [] => none
  | (k', v) :: rest => if k' = k then some v else lookupKey k rest

mutual

/-- Python `==` on parsed JSON values: order-sensitive for lists, key-set and
value equality for dictionaries; `True == 1` and `False == 0` as in Python. -/
def pyEq : Json → Json → Bool
  | .null, .null => true
  | .bool a, .bool b => a == b
  | .bool a, .num b => b == (if a then 1 else 0)
  | .num a, .bool b => a == (if b then 1 else 0)
  | .num a, .num b => a == b
  | .str a, .str b => a == b
  | .arr xs, .arr ys => pyEqList xs ys
  | .obj xs, .obj ys => xs.length == ys.length && pyEqFields xs ys
  | _, _ => false

/-- Pointwise Python `==` on lists. -/
def pyEqList : List Json → List Json → Bool
  | [], [] => true
  | x :: xs, y :: ys => pyEq x y && pyEqList xs ys
  | _, _ => false

/-- Every key of the first dictionary is present in the second with `==` value
(with equal sizes and unique keys this is Python dictionary equality). -/
def pyEqFields : List (String × Json) → List (String × Json) → Bool
  | [], _ => true
  | (k, v) :: rest, ys =>
    (match lookupKey k ys with
     | some w => pyEq v w
     | none => false) && pyEqFields rest ys

end

/-- Python `len()` on a parsed JSON value: defined for strings, lists and
dictionaries; `none` models the `TypeError` raised on numbers, booleans and
`None`. -/
def pyLen : Json → Option Nat
  | .str s => some s.length
  | .arr xs => some xs.length
  | .obj kvs => some kvs.length
  | _ => none

/-- Python type name of a parsed JSON value, as it appears in error messages. -/
def pyTypeName : Json → String
  | .null => "NoneType"
  | .bool _ => "bool"
  | .num _ => "int"
  | .str _ => "str"
  | .arr _ => "list"
  | .obj _ => "dict"

/-- Escaping used by Python `repr` on the characters that occur in this
repository's data: backslash and single quote. -/
def escChar (c : Char) : String :=
  if c = '\\' then "\\\\" else if c = '\'' then "\\'" else String.singleton c

/-- Python `repr` of a string (single-quoted). -/
def pyReprStr (s : String) : String :=
  "'" ++ String.join (s.data.map escChar) ++ "'"

mutual

/-- Python `repr` of a parsed JSON value, as rendered inside f-strings for
containers: `\x7b'a': 1, 'b': [True, None]\x7d`. -/
def pyRepr : Json → String
  | .null => "None"
  | .bool true => "True"
  | .bool false => "False"
  | .num n => toString n
  | .str s => pyReprStr s
  | .arr xs => "[" ++ String.intercalate ", " (pyReprList xs) ++ "]"
  | .obj kvs => "\x7b" ++ String.intercalate ", " (pyReprFields kvs) ++ "\x7d"

/-- `repr` of each element of a Python list. -/
def pyReprList : List Json → List String
  | [] => []
  | x :: xs => pyRepr x :: pyReprList xs

/-- `repr` of each `key: value` entry of a Python dictionary. -/
def pyReprFields : List (String × Json) → List String
  | [] => []
  | (k, v) :: rest => (pyReprStr k ++ ": " ++ pyRepr v) :: pyReprFields rest

end

/-- Python `str()` of a value interpolated at the top level of an f-string:
strings render without quotes, containers render by `repr`. -/
def pyStrTop : Json → String
  | .str s => s
  | j => pyRepr j

/-- Does the character list start with the given needle. -/
def startsWithL : List Char → List Char → Bool
  | [], _ => true
  | _, [] => false
  | a :: as, b :: bs => a == b && startsWithL as bs

/-- Does the needle occur as a contiguous run inside the haystack. -/
def hasSubL (needle : List Char) : List Char → Bool
  | [] => needle.isEmpty
  | c :: rest => startsWithL needle (c :: rest) || hasSubL needle rest

/-- Substring occurrence on strings (executable). -/
def strHas (hay needle : String) : Bool := hasSubL needle.data hay.data

theorem startsWithL_self_append (n t : List Char) : startsWithL n (n ++ t) = true := by
  induction n with
  | nil => simp [startsWithL]
  | cons a as ih => simp [startsWithL, ih]

theorem hasSubL_append_right (n a b : List Char) (h : hasSubL n b = true) :
    hasSubL n (a ++ b) = true := by
  induction a with
  | nil => simpa
  | cons c cs ih =>
    simp only [List.cons_append, hasSubL, Bool.or_eq_true]
    exact Or.inr ih

theorem hasSubL_self_append (n t : List Char) : hasSubL n (n ++ t) = true := by
  cases n with
  | nil =>
    cases t with
    | nil => simp [hasSubL]
    | cons c cs => simp [hasSubL, startsWithL]
  | cons a as =>
    simp only [List.cons_append, hasSubL, Bool.or_eq_true]
    exact Or.inl (startsWithL_self_append (a :: as) t)

/-- Helper: a starts-with fact extends across an appended tail. -/
theorem startsWithL_append_of (n a b : List Char) (h : startsWithL n a = true) :
    startsWithL n (a ++ b) = true := by
  induction n generalizing a with
  | nil => simp [startsWithL]
  | cons x xs ih =>
    cases a with
    | nil => simp [startsWithL] at h
    | cons c cs =>
      simp only [startsWithL, Bool.and_eq_true] at h
      simp only [List.cons_append, startsWithL, Bool.and_eq_true]
      exact ⟨h.1, ih cs h.2⟩

theorem hasSubL_append_left (n a b : List Char) (h : hasSubL n a = true) :
    hasSubL n (a ++ b) = true := by
  induction a with
  | nil =>
    simp only [hasSubL, List.isEmpty_iff] at h
    subst h
    simpa using hasSubL_self_append [] b
  | cons c cs ih =>
    simp only [hasSubL, Bool.or_eq_true] at h
    simp only [List.cons_append, hasSubL, Bool.or_eq_true]
    cases h with
    | inl hs =>
      left
      cases n with
      | nil => simp [startsWithL]
      | cons x xs =>
        simp only [startsWithL, Bool.and_eq_true] at hs ⊢
        exact ⟨hs.1, by simpa using startsWithL_append_of xs cs b hs.2⟩
    | inr hr => exact Or.inr (ih hr)

/-- Occurrence in a string extends to a right-appended string. -/
theorem strHas_append_left (a b needle : String) (h : strHas a needle = true) :
    strHas (a ++ b) needle = true := by
  unfold strHas at *
  rw [String.data_append]
  exact hasSubL_append_left _ _ _ h

/-- Occurrence in a string extends to a left-appended string. -/
theorem strHas_append_right (a b needle : String) (h : strHas b needle = true) :
    strHas (a ++ b) needle = true := by
  unfold strHas at *
  rw [String.data_append]
  exact hasSubL_append_right _ _ _ h

/-- Every string occurs in itself. -/
theorem strHas_self (s : String) : strHas s s = true := by
  unfold strHas
  simpa using hasSubL_self_append s.data []

/-! ## Embedding of tools/migration_testing/compare_responses.py -/

namespace bcolors

def HEADER : String := "\x1b[95m"

def OKBLUE : String := "\x1b[94m"

def OKCYAN : String := "\x1b[96m"

def OKGREEN : String := "\x1b[92m"

def WARNING : String := "\x1b[93m"

def FAIL : String := "\x1b[91m"

def ENDC : String := "\x1b[0m"

def BOLD : String := "\x1b[1m"

def UNDERLINE : String := "\x1b[4m"

end bcolors

/-- An HTTP response as the script observes it through the `requests` library:
the status code, the declared `Content-Type` header, the raw body length in
bytes, the result of `response.json()` (`none` when the body is not valid JSON
and the call raises `requests.exceptions.JSONDecodeError`), and the `str` of
that decode error. -/
structure Response where
  status_code : Nat
  content_type : String
  raw_len : Nat
  json_result : Option Json
  json_err : String

/-- Outcome of the two `requests.get`/`requests.post` calls of lines 411-424:
either both responses, or a `requests.exceptions.RequestException` (timeout,
connection error) with its message. -/
inductive FetchOutcome where
  | ok (current_response new_response : Response)
  | requestError (msg : String)

/-- Lines 428-435: the Python value bound to `current_data`/`new_data` — the
parsed body, or the sentinel string `"Not valid JSON"` on a decode error. -/
def pyData (r : Response) : Json := r.json_result.getD (.str "Not valid JSON")

/-- Line 459: the one-line report for a caught `RequestException`. -/
def errorFetchingLine (endpoint method msg : String) : String :=
  "Error fetching " ++ endpoint ++ " (" ++ method ++ "): " ++ msg

/-- Embedding of `compare_responses` (lines 406-459), with the network
abstracted as the `fetch` outcome.  The returned value is `.ok lines` for a
normal return printing `lines`, and `.error e` when an exception escapes the
function (the `except` clause catches only `RequestException`; the
`ValueError` of line 426 and the `TypeError` raised by `len()` on a scalar at
line 447 propagate). -/
def compare_responses (current_domain new_domain endpoint method : String)
    (fetch : FetchOutcome) : Except String (List String) :=
  if method = "GET" ∨ method = "POST" then
    match fetch with
    | .requestError e => .ok [errorFetchingLine endpoint method e]
    | .ok current_response new_response =>
      let current_data := pyData current_response
      let new_data := pyData new_response
      if pyEq current_data new_data = false then
        .ok [bcolors.FAIL ++ "DIFF" ++ bcolors.ENDC ++ " " ++ method ++ " " ++ endpoint,
             "  Current (" ++ current_domain ++ "): " ++
               toString current_response.status_code ++ " " ++ pyStrTop current_data,
             "  New (" ++ new_domain ++ "): " ++
               toString new_response.status_code ++ " " ++ pyStrTop new_data]
      else
        let code := current_response.status_code
        if 400 ≤ code then
          .ok [bcolors.OKGREEN ++ "SAME" ++ bcolors.ENDC ++ " " ++
               (bcolors.WARNING ++ toString code ++ bcolors.ENDC) ++ " " ++
               method ++ " " ++ endpoint]
        else
          match current_response.json_result with
          | none =>
            .ok [errorFetchingLine endpoint method current_response.json_err]
          | some j =>
            match pyLen j with
            | none => .error ("TypeError: object of type '" ++ pyTypeName j ++
                              "' has no len()")
            | some n =>
              let colored_code := if n = 0
                then bcolors.WARNING ++ toString code ++ " EMPTY" ++ bcolors.ENDC
                else toString code
              .ok [bcolors.OKGREEN ++ "SAME" ++ bcolors.ENDC ++ " " ++
                   colored_code ++ " " ++ method ++ " " ++ endpoint]
  else .error "ValueError: Invalid method. Use 'GET' or 'POST'"

/-- An entry of the `ENDPOINTS`/`ERROR_TESTS` lists: a `(endpoint, methods,
params)` tuple, or a bare endpoint string (lines 464-467 default it to a
single GET with no params). -/
inductive EndpointInfo where
  | tup (endpoint : String) (methods : List String) (params : Json)
  | bare (endpoint : String)

def infoEndpoint : EndpointInfo → String
  | .tup e _ _ => e
  | .bare e => e

def infoMethods : EndpointInfo → List String
  | .tup _ ms _ => ms
  | .bare _ => ["GET"]

def infoParams : EndpointInfo → Option Json
  | .tup _ _ p => some p
  | .bare _ => none

/-- The network environment: the fetch outcome observed for a given
`use_api_key` flag, endpoint and method. -/
def NetEnv : Type := Bool → String → String → FetchOutcome

/-- Inner loop of `send_requests` (lines 469-470): one comparison per declared
method, in order; an uncaught exception aborts the rest. -/
def runMethodList (env : NetEnv) (current_domain new_domain endpoint : String)
    (use_api_key : Bool) : List String → Except String (List String)
  | [] => .ok []
  | m :: ms =>
    match compare_responses current_domain new_domain endpoint m
        (env use_api_key endpoint m) with
    | .error e => .error e
    | .ok ls =>
      match runMethodList env current_domain new_domain endpoint use_api_key ms with
      | .error e => .error e
      | .ok ls' => .ok (ls ++ ls')

/-- Embedding of `send_requests` (lines 462-470): iterate the endpoint list in
order, and for each entry its declared methods in order. -/
def send_requests (env : NetEnv) (current_domain new_domain : String)
    (use_api_key : Bool) : List EndpointInfo → Except String (List String)
  | [] => .ok []
  | endpoint_info :: rest =>
    match runMethodList env current_domain new_domain (infoEndpoint endpoint_info)
        use_api_key (infoMethods endpoint_info) with
    | .error e => .error e
    | .ok ls =>
      match send_requests env current_domain new_domain use_api_key rest with
      | .error e => .error e
      | .ok ls' => .ok (ls ++ ls')

/-- Line 29: flag selecting `NEW_ENDPOINTS` instead of `ENDPOINTS`. -/
def USE_NEW_ENDPOINTS_ONLY : Bool := false

/-- Lines 30-32: empty scratch list for trying out new endpoints. -/
def NEW_ENDPOINTS : List EndpointInfo := []

/-- Lines 34-378: the static endpoint descriptor list. -/
def ENDPOINTS : List EndpointInfo := [
  .tup "/bulk/stats" ["GET", "POST"] (.obj [
    ("place", .arr [.str "geoId/05", .str "geoId/06085"]),
    ("stats_var", .str "Count_Person_Male")]),
  .tup "/internal/bio" ["GET", "POST"] (.obj [
    ("dcid", .str "bio/FGFR1_HUMAN")]),
  .tup "/node/places-in" ["GET", "POST"] (.obj [
    ("dcids", .arr [.str "geoId/10"]),
    ("placeType", .str "County")]),
  .tup "/node/property-labels" ["GET", "POST"] (.obj [
    ("dcids", .arr [.str "geoId/5508"])]),
  .tup "/node/property-values" ["GET", "POST"] (.obj [
    ("dcids", .arr [.str "country/CIV"]),
    ("property", .str "name")]),
  .tup "/node/triples" ["GET", "POST"] (.obj [
    ("dcids", .arr [.str "SquareMeter1238495"])]),
  .tup "/place/stat-vars" ["GET", "POST"] (.obj [
    ("dcids", .arr [.str "country/PLW"])]),
  .tup "/place/stat/date/within-place" ["GET", "POST"] (.obj [
    ("ancestor_place", .str "country/USA"),
    ("place_type", .str "State"),
    ("stat_vars", .arr [.str "Count_Farm", .str "Count_Teacher"])]),
  .tup "/query" ["GET", "POST"] (.obj [
    ("sparql", .str "SELECT ?name     WHERE \x7b     ?state typeOf State .     ?state dcid geoId/06 .     ?state name ?name     \x7d")]),
  .tup "/search" ["GET"] (.obj [
    ("query", .str "Native Hawaiian Farmers")]),
  .tup "/stat/all" ["GET", "POST"] (.obj [
    ("places", .arr [.str "geoId/05", .str "geoId/06085"]),
    ("stat_vars", .arr [.str "Count_Person_Male", .str "Count_Person_Female"])]),
  .tup "/stat/series" ["GET", "POST"] (.obj [
    ("place", .str "geoId/51"),
    ("stat_var", .str "Annual_Consumption_Coal_ElectricPower")]),
  .tup "/stat/value" ["GET", "POST"] (.obj [
    ("place", .str "country/GMB"),
    ("stat_var", .str "Amount_EconomicActivity_ExpenditureActivity_EducationExpenditure_Government_AsFractionOf_Amount_EconomicActivity_GrossDomesticProduction_Nominal")]),
  .tup "/v1/place/ranking" ["GET", "POST"] (.obj [
    ("stat_var_dcids", .arr [.str "Count_Person"]),
    ("place_type", .str "Country")]),
  .tup "/v1/place/related" ["GET", "POST"] (.obj [
    ("dcid", .str "geoId/06085"),
    ("stat_var_dcids", .arr [.str "Count_Person", .str "Median_Income_Person",
      .str "Median_Age_Person", .str "UnemploymentRate_Person"])]),
  .tup "/v1/place/stat-vars/union" ["GET", "POST"] (.obj [
    ("dcids", .arr [.str "geoId/06", .str "geoId/36"]),
    ("stat_vars", .arr [.str "Count_Farm_ReportedIncome"])]),
  .tup "/v1/recon/entity/resolve" ["POST"] (.obj [
    ("entities", .arr [.obj [
      ("source_id", .str "newId/SunnyvaleId"),
      ("entity_ids", .obj [
        ("ids", .arr [
          .obj [("prop", .str "geoId"), ("val", .str "0677000")],
          .obj [("prop", .str "wikidataId"), ("val", .str "Q110739")]])])]])]),
  .tup "/v1/recon/resolve/coordinate" ["POST"] (.obj [
    ("coordinates", .obj [("latitude", .num 56), ("longitude", .num (-109))])]),
  .tup "/v1/recon/resolve/id" ["POST"] (.obj [
    ("ids", .arr [.str "ChIJ2WrMN9MDDUsRpY9Doiq3aJk"]),
    ("in_prop", .str "placeId"),
    ("out_prop", .str "dcid")]),
  .tup "/v1/stat/date/within-place" ["GET", "POST"] (.obj [
    ("ancestor_place", .str "country/USA"),
    ("child_place_type", .str "State"),
    ("stat_vars", .arr [.str "Count_Farm", .str "Count_Teacher"])]),
  .tup "/v1/variable/search" ["GET", "POST"] (.obj [
    ("query", .str "peanuts")]),
  .tup "/v2/resolve" ["GET", "POST"] (.obj [
    ("nodes", .arr [.str "Mountain View, CA", .str "New York City"]),
    ("property", .str "<-description\x7btypeOf:City\x7d->dcid")]),
  .tup "/version" ["GET"] (.obj []),
  .tup "/place/stats-var" ["GET", "POST"] (.obj [
    ("dcids", .arr [.str "country/PLW"])]),
  .tup "/update-cache" ["POST"] (.obj []),
  .tup "/v1/bulk/find/entities" ["POST"] (.obj [
    ("entities", .arr [
      .obj [("description", .str "Georgia")],
      .obj [("description", .str "Georgia"), ("type", .str "Country")]])]),
  .tup "/v1/bulk/info/place" ["GET", "POST"] (.obj [
    ("nodes", .arr [.str "geoId/06", .str "geoId/02"])]),
  .tup "/v1/bulk/info/variable" ["GET", "POST"] (.obj [
    ("nodes", .arr [.str "Count_Farm", .str "Count_Teacher"])]),
  .tup "/v1/bulk/info/variable-group" ["GET", "POST"] (.obj [
    ("nodes", .arr [.str "dc/g/Person_Gender-Female",
                    .str "dc/g/Person_Age_Gender-Female"])]),
  .tup "/v1/bulk/observation-dates/linked" ["GET", "POST"] (.obj [
    ("linked_property", .str "containedInPlace"),
    ("linked_entity", .str "country/USA"),
    ("entity_type", .str "State"),
    ("variables", .str "Count_Person")]),
  .tup "/v1/bulk/observation-existence" ["GET", "POST"] (.obj [
    ("variables", .str "Count_Person"),
    ("entities", .str "country/USA")]),
  .tup "/v1/bulk/observations/point" ["GET", "POST"] (.obj [
    ("variables", .arr [.str "Count_Person"]),
    ("entities", .arr [.str "country/USA"])]),
  .tup "/v1/bulk/observations/point/linked" ["GET", "POST"] (.obj [
    ("linked_property", .str "containedInPlace"),
    ("linked_entity", .str "country/USA"),
    ("entity_type", .str "State"),
    ("variables", .str "Count_Person")]),
  .tup "/v1/bulk/observations/series" ["GET", "POST"] (.obj [
    ("variables", .arr [.str "Count_Person"]),
    ("entities", .arr [.str "country/USA"])]),
  .tup "/v1/bulk/observations/series/linked" ["GET", "POST"] (.obj [
    ("linked_property", .str "containedInPlace"),
    ("linked_entity", .str "country/USA"),
    ("entity_type", .str "State"),
    ("variables", .str "Count_Person")]),
  .tup "/v1/bulk/properties/out" ["GET", "POST"] (.obj [
    ("nodes", .arr [.str "country/USA"])]),
  .tup "/v1/bulk/property/values/out" ["GET", "POST"] (.obj [
    ("nodes", .arr [.str "wikidataId/Q27119", .str "wikidataId/Q27116",
                    .str "wikidataId/Q21181"]),
    ("property", .str "name")]),
  .tup "/v1/bulk/property/values/in/linked" ["GET", "POST"] (.obj [
    ("nodes", .arr [.str "country/USA", .str "country/IND"]),
    ("property", .str "containedInPlace"),
    ("value_node_type", .str "State")]),
  .tup "/v1/bulk/triples/out" ["GET", "POST"] (.obj [
    ("nodes", .arr [.str "CarbonDioxide", .str "Methane"])]),
  .tup "/v1/bulk/variables" ["GET", "POST"] (.obj [
    ("entities", .arr [.str "wikidataId/Q1490", .str "wikidataId/Q8684"])]),
  .tup "/v1/events" ["GET", "POST"] (.obj [
    ("event_type", .str "CycloneEvent"),
    ("affected_place_dcid", .str "Earth"),
    ("date", .str "2020-01")]),
  .tup "/v1/events/dates" ["GET", "POST"] (.obj [
    ("event_type", .str "CycloneEvent"),
    ("affected_place_dcid", .str "geoId/12")]),
  .tup "/v1/find/entities" ["GET"] (.obj [
    ("description", .str "Georgia")]),
  .tup "/v1/info/place/geoId/3651000" ["GET"] (.obj []),
  .tup "/v1/info/variable-group/dc/g/Person_Gender-Female" ["GET"] (.obj []),
  .tup "/v1/info/variable/Count_Farm" ["GET"] (.obj []),
  .tup "/v1/internal/page/bio/bio/FGFR1_HUMAN" ["GET"] (.obj []),
  .tup "/v1/internal/page/place/country/USA" ["GET"] (.obj [
    ("category", .str "Country")]),
  .tup "/v1/internal/page/place" ["POST"] (.obj [
    ("node", .str "country/USA"),
    ("category", .str "Country")]),
  .tup "/v1/observations/point/geoId/06/Annual_Generation_Electricity" ["GET"] (.obj [
    ("date", .str "2018")]),
  .tup "/v1/observations/series/wikidataId/Q987/Mean_Rainfall" ["GET"] (.obj []),
  .tup "/v1/observations/series/derived" ["GET", "POST"] (.obj [
    ("entity", .str "geoId/06"),
    ("formula", .str "Count_Person - Count_Person_Female - Count_Person_Male")]),
  .tup "/v1/properties/out/wikidataId/Q27119" ["GET"] (.obj []),
  .tup "/v1/property/values/out/geoId/sch3620580/name" ["GET"] (.obj []),
  .tup "/v1/property/values/in/linked/country/IND/containedInPlace" ["GET"] (.obj [
    ("value_node_type", .str "State")]),
  .tup "/v1/query" ["GET", "POST"] (.obj [
    ("sparql", .str "SELECT ?name     WHERE \x7b     ?biologicalSpecimen typeOf BiologicalSpecimen .     ?biologicalSpecimen name ?name     \x7d     ORDER BY DESC(?name)     LIMIT 10")]),
  .tup "/v1/recognize/entities" ["GET", "POST"] (.obj [
    ("queries", .arr [.str "the birds in San Jose are chirpy"])]),
  .tup "/v1/recognize/places" ["GET", "POST"] (.obj [
    ("queries", .arr [.str "the birds in San Jose are chirpy"])]),
  .tup "/v1/triples/out/Count_Person" ["GET"] (.obj []),
  .tup "/v1/variable/ancestors/WithdrawalRate_Water_Irrigation" ["GET"] (.obj []),
  .tup "/v1/variable/ancestors" ["POST"] (.obj [
    ("node", .str "WithdrawalRate_Water_Irrigation")]),
  .tup "/v1/variables/wikidataId/Q30988" ["GET"] (.obj []),
  .tup "/v2/event" ["GET", "POST"] (.obj [
    ("node", .str "country/USA"),
    ("property", .str "<-location\x7btypeOf:FireEvent, date:2020-10, area:3.1#6.2#Acre\x7d")]),
  .tup "/v2/node" ["GET", "POST"] (.obj [
    ("nodes", .str "geoId/06"),
    ("property", .str "<-")]),
  .tup "/v2/observation" ["GET"] (.obj [
    ("date", .str "LATEST"),
    ("variable.dcids", .arr [.str "Count_Person"]),
    ("entity.dcids", .arr [.str "country/USA"]),
    ("select", .arr [.str "entity", .str "variable", .str "value", .str "date"])]),
  .tup "/v2/observation" ["POST"] (.obj [
    ("date", .str "LATEST"),
    ("variable", .obj [("dcids", .arr [.str "Count_Person"])]),
    ("entity", .obj [("dcids", .arr [.str "country/USA"])]),
    ("select", .arr [.str "entity", .str "variable", .str "value", .str "date"])]),
  .tup "/v2/sparql" ["GET", "POST"] (.obj [
    ("query", .str "SELECT ?name WHERE \x7b?biologicalSpecimen typeOf BiologicalSpecimen . ?biologicalSpecimen name ?name\x7d ORDER BY DESC(?name) LIMIT 10")])]

/-- Lines 380-391: endpoints expected to return error status codes. -/
def ERROR_TESTS : List EndpointInfo := [
  .tup "/stat/series?place=&stat_var=Count_Person" ["GET", "POST"] (.obj []),
  .tup "/nonexistent" ["GET", "POST"] (.obj []),
  .tup "/v1/recon/resolve/id" ["GET"] (.obj []),
  .tup "/query?name=example.com&type=A" ["GET"] (.obj []),
  .tup "/v1/recon/resolve/id" ["POST"] (.obj [])]

/-- Embedding of `main` (lines 473-487): the with-key pass over the endpoint
list, the without-key pass, then the error tests with key.  `.error e` models
an uncaught exception (non-zero process exit); `.ok lines` a clean exit 0. -/
def mainRun (env : NetEnv) (current_domain new_domain : String) :
    Except String (List String) :=
  let to_use := if USE_NEW_ENDPOINTS_ONLY then NEW_ENDPOINTS else ENDPOINTS
  match send_requests env current_domain new_domain true to_use with
  | .error e => .error e
  | .ok l1 =>
    match send_requests env current_domain new_domain false to_use with
    | .error e => .error e
    | .ok l2 =>
      match send_requests env current_domain new_domain true ERROR_TESTS with
      | .error e => .error e
      | .ok l3 =>
        .ok (["", bcolors.BOLD ++ "With API key" ++ bcolors.ENDC] ++ l1 ++
             ["", bcolors.BOLD ++ "Without API key" ++ bcolors.ENDC] ++ l2 ++
             ["", bcolors.BOLD ++ "Error tests" ++ bcolors.ENDC] ++ l3)

/-- Exit code of the process for a given run result: an uncaught exception
exits non-zero, a normal return exits 0. -/
def processExitCode (r : Except String (List String)) : Nat :=
  match r with
  | .ok _ => 0
  | .error _ => 1

/-! ## Heap model for the request-building phase (lines 406-426)

`compare_responses` receives `params` as a reference to a shared Python
dictionary (an entry of `ENDPOINTS`).  To state what the function does and
does not mutate, dictionaries live in an explicit store of cells addressed by
natural numbers. -/

/-- A store of Python objects; a reference is an index into `cells`. -/
structure Heap where
  cells : List Json

/-- Read the object behind a reference. -/
def Heap.deref (h : Heap) (r : Nat) : Json := h.cells.getD r .null

/-- Allocate a fresh object (`\x7b\x7d` display, `copy.deepcopy`), returning its
reference. -/
def Heap.alloc (h : Heap) (v : Json) : Heap × Nat :=
  (⟨h.cells ++ [v]⟩, h.cells.length)

/-- Overwrite the object behind a reference. -/
def Heap.write (h : Heap) (r : Nat) (v : Json) : Heap := ⟨h.cells.set r v⟩

/-- Python dictionary item assignment `d[k] = v`: replace the value of an
existing key in place, else append the new key at the end. -/
def assocSet : List (String × Json) → String → Json → List (String × Json)
  | [], k, v => [(k, v)]
  | (k', v') :: rest, k, v =>
    if k' = k then (k', v) :: rest else (k', v') :: assocSet rest k v

/-- Item assignment on a stored object (the source only ever assigns into
dictionaries; other shapes are untouched here, Python would raise). -/
def dictSetItem : Json → String → Json → Json
  | .obj kvs, k, v => .obj (assocSet kvs k v)
  | j, _, _ => j

/-- A request as handed to the `requests` library: the URL together with the
query-parameter dictionary value (GET) or the JSON body value and header list
(POST), captured at call time. -/
inductive SentRequest where
  | get (url : String) (query : Json)
  | post (url : String) (body : Option Json) (headers : List (String × String))

/-- Embedding of lines 406-426 of `compare_responses`: URL construction,
credential attachment and the two `requests` calls.  `params` is `none` for
Python `None`, or a reference into the heap.  Returns the heap after the call
and the two requests sent (current domain first); `.error` is the uncaught
`ValueError` for an invalid method. -/
def request_phase (current_domain new_domain endpoint api_key : String)
    (use_api_key : Bool) (method : String) (params : Option Nat) (h : Heap) :
    Except String (Heap × SentRequest × SentRequest) :=
  let current_url := "https://" ++ current_domain ++ endpoint
  let new_url := "https://" ++ new_domain ++ endpoint
  if method = "GET" then
    let alloc_res :=
      match params with
      | none => h.alloc (.obj [])
      | some r => h.alloc (h.deref r)
    let h1 := alloc_res.1
    let req_params := alloc_res.2
    let h2 := if use_api_key
      then h1.write req_params (dictSetItem (h1.deref req_params) "key" (.str api_key))
      else h1
    .ok (h2, .get current_url (h2.deref req_params), .get new_url (h2.deref req_params))
  else if method = "POST" then
    let headers := if use_api_key then [("x-api-key", api_key)] else []
    .ok (h, .post current_url (params.map h.deref) headers,
            .post new_url (params.map h.deref) headers)
  else .error "ValueError: Invalid method. Use 'GET' or 'POST'"

/-! ## Embedding of tools/benchmark/dc_api_latency_test.py (lines 21-45, 101-138) -/

/-- What the file system returns for a descriptor path: the file is missing
(`FileNotFoundError`), its text is not JSON (`json.JSONDecodeError` with the
given message), or it parses to a JSON value. -/
inductive FileContent where
  | missing
  | invalid (msg : String)
  | parsed (v : Json)

/-- The file system as seen through `open`/`json.load`. -/
def FileSys : Type := String → FileContent

/-- Python `for x in v`: the values iterated over — list elements, dictionary
keys, or the characters of a string; scalars raise `TypeError`. -/
def pyIterate : Json → Except String (List Json)
  | .arr xs => .ok xs
  | .obj kvs => .ok (kvs.map fun kv => .str kv.1)
  | .str s => .ok (s.data.map fun c => .str (String.singleton c))
  | j => .error ("TypeError: '" ++ pyTypeName j ++ "' object is not iterable")

/-- Python `k in v` for a string `k`: key membership for dictionaries, element
membership for lists, substring for strings; scalars raise `TypeError`. -/
def pyIn (k : String) : Json → Except String Bool
  | .obj kvs => .ok (kvs.any fun kv => kv.1 == k)
  | .arr xs => .ok (xs.any fun x => pyEq (.str k) x)
  | .str s => .ok (strHas s k)
  | j => .error ("TypeError: argument of type '" ++ pyTypeName j ++ "' is not iterable")

/-- Python `str.split(sep)` for a one-character separator, on the character
list. -/
def splitChar (sep : Char) : List Char → List (List Char)
  | [] => [[]]
  | c :: rest =>
    match splitChar sep rest with
    | [] => [[]]
    | g :: gs => if c = sep then [] :: g :: gs else (c :: g) :: gs

/-- `requests_json_files.split(",")` of line 27. -/
def splitCommas (s : String) : List String :=
  (splitChar ',' s.data).map fun cs => String.mk cs

/-- Line 35-37: the `ValueError` message for a descriptor entry missing a
required field (the f-string interpolates the entry via `str`). -/
def valueErrorMsg (request : Json) : String :=
  "Each entry in the request file should have 'test_name' and" ++
  " 'path' fields. Request: " ++ pyStrTop request

/-- Lines 33-37: validate every entry of one loaded file before it is added;
the first offending entry raises. -/
def validateEntries : List Json → Except String Unit
  | [] => .ok ()
  | request :: rest =>
    match pyIn "test_name" request with
    | .error e => .error e
    | .ok hasName =>
      if hasName = false then .error (valueErrorMsg request)
      else
        match pyIn "path" request with
        | .error e => .error e
        | .ok hasPath =>
          if hasPath = false then .error (valueErrorMsg request)
          else validateEntries rest

/-- Lines 28-44: process the file paths in order, validating and accumulating
each file's entries; any exception aborts the whole load. -/
def loadFiles (fs : FileSys) : List String → List Json → Except String (List Json)
  | [], requests => .ok requests
  | file_path :: rest, requests =>
    match fs file_path with
    | .missing =>
      .error ("FileNotFoundError: " ++ file_path ++
              " (Failed to load test requests from " ++ file_path ++ ")")
    | .invalid m =>
      .error (m ++ " (Failed to decode JSON from " ++ file_path ++ ")")
    | .parsed loaded_data =>
      match pyIterate loaded_data with
      | .error e => .error e
      | .ok entries =>
        match validateEntries entries with
        | .error e => .error e
        | .ok _ => loadFiles fs rest (requests ++ entries)

/-- Embedding of `load_test_requests` (lines 21-45): assert the argument is a
non-empty string, split it on commas, and load each file. -/
def load_test_requests (requests_json_files : String) (fs : FileSys) :
    Except String (List Json) :=
  if requests_json_files = "" then
    .error "AssertionError: requests_json_files is empty"
  else loadFiles fs (splitCommas requests_json_files) []

/-- Lines 101-110 (`test_start`): `_SHARED_TEST_REQUESTS` is reset to `[]` and
then assigned the load result; when the load raises, it stays empty. -/
def test_start_shared (requests_json_files : String) (fs : FileSys) : List Json :=
  match load_test_requests requests_json_files fs with
  | .ok rs => rs
  | .error _ => []

/-- Line 131-135 membership test, total on the shapes validation lets
through. -/
def pyInBool (k : String) : Json → Bool
  | .obj kvs => kvs.any fun kv => kv.1 == k
  | .arr xs => xs.any fun x => pyEq (.str k) x
  | .str s => strHas s k
  | _ => false

/-- Python truthiness of a parsed JSON value. -/
def pyTruthy : Json → Bool
  | .null => false
  | .bool b => b
  | .num n => n != 0
  | .str s => s != ""
  | .arr xs => !xs.isEmpty
  | .obj kvs => !kvs.isEmpty

/-- Line 133-135: run the request unless it declares `api_versions` excluding
this user's version (absent or falsy `api_versions` means run always). -/
def versionSelected (api_version : String) (request : Json) : Bool :=
  match request with
  | .obj kvs =>
    match lookupKey "api_versions" kvs with
    | none => true
    | some v => !pyTruthy v || pyInBool api_version v
  | _ => true

/-- Embedding of `run_latency_tests` (lines 129-138): the requests one task
iteration actually executes — none at all when the shared list is empty. -/
def run_latency_tests (api_version : String) (test_requests : List Json) :
    List Json :=
  match test_requests with
  | [] => []
  | _ => test_requests.filter (versionSelected api_version)

/-! ## Helper lemmas about compare_responses -/

/-- Unfolding: a caught transport error prints the single report line. -/
theorem compare_requestError (cd nd ep m msg : String)
    (hm : m = "GET" ∨ m = "POST") :
    compare_responses cd nd ep m (.requestError msg) =
      .ok [errorFetchingLine ep m msg] := by
  unfold compare_responses
  rw [if_pos hm]

/-- Unfolding: differing data prints the three DIFF lines. -/
theorem compare_diff (cd nd ep m : String) (cur new : Response)
    (hm : m = "GET" ∨ m = "POST")
    (hne : pyEq (pyData cur) (pyData new) = false) :
    compare_responses cd nd ep m (.ok cur new) =
      .ok [bcolors.FAIL ++ "DIFF" ++ bcolors.ENDC ++ " " ++ m ++ " " ++ ep,
           "  Current (" ++ cd ++ "): " ++ toString cur.status_code ++ " " ++
             pyStrTop (pyData cur),
           "  New (" ++ nd ++ "): " ++ toString new.status_code ++ " " ++
             pyStrTop (pyData new)] := by
  unfold compare_responses
  rw [if_pos hm]
  simp only [hne, if_pos]

/-- C2: for every pair of responses whose parsed (or sentinel) body contents
differ, `compare_responses` emits a DIFF verdict line, and the output includes
both domains' raw HTTP status codes. -/
theorem C2_diff_both_codes (current_domain new_domain endpoint method : String)
    (cur new : Response)
    (hm : method = "GET" ∨ method = "POST")
    (hne : pyEq (pyData cur) (pyData new) = false) :
    compare_responses current_domain new_domain endpoint method (.ok cur new) =
      .ok [bcolors.FAIL ++ "DIFF" ++ bcolors.ENDC ++ " " ++ method ++ " " ++ endpoint,
           "  Current (" ++ current_domain ++ "): " ++ toString cur.status_code ++
             " " ++ pyStrTop (pyData cur),
           "  New (" ++ new_domain ++ "): " ++ toString new.status_code ++
             " " ++ pyStrTop (pyData new)]
    ∧ strHas ("  Current (" ++ current_domain ++ "): " ++ toString cur.status_code ++
        " " ++ pyStrTop (pyData cur)) (toString cur.status_code) = true
    ∧ strHas ("  New (" ++ new_domain ++ "): " ++ toString new.status_code ++
        " " ++ pyStrTop (pyData new)) (toString new.status_code) = true := by
  refine ⟨compare_diff _ _ _ _ _ _ hm hne, ?_, ?_⟩
  · apply strHas_append_left
    apply strHas_append_left
    apply strHas_append_right
    exact strHas_self _
  · apply strHas_append_left
    apply strHas_append_left
    apply strHas_append_right
    exact strHas_self _

/-- C2 witness: concrete pair with equal status 200 and bodies differing in one
value; the DIFF output carries both status codes. -/
theorem C2_diff_both_codes_witness :
    compare_responses "api.datacommons.org" "api2.datacommons.org" "/version" "GET"
      (.ok ⟨200, "application/json", 18, some (.obj [("version", .str "1.0")]), ""⟩
           ⟨200, "application/json", 18, some (.obj [("version", .str "2.0")]), ""⟩) =
      .ok [bcolors.FAIL ++ "DIFF" ++ bcolors.ENDC ++ " " ++ "GET" ++ " " ++ "/version",
           "  Current (" ++ "api.datacommons.org" ++ "): " ++ toString (200 : Nat) ++
             " " ++ pyStrTop (.obj [("version", .str "1.0")]),
           "  New (" ++ "api2.datacommons.org" ++ "): " ++ toString (200 : Nat) ++
             " " ++ pyStrTop (.obj [("version", .str "2.0")])]
    ∧ strHas ("  Current (" ++ "api.datacommons.org" ++ "): " ++ toString (200 : Nat) ++
        " " ++ pyStrTop (.obj [("version", .str "1.0")])) (toString (200 : Nat)) = true
    ∧ strHas ("  New (" ++ "api2.datacommons.org" ++ "): " ++ toString (200 : Nat) ++
        " " ++ pyStrTop (.obj [("version", .str "2.0")])) (toString (200 : Nat)) = true :=
  C2_diff_both_codes "api.datacommons.org" "api2.datacommons.org" "/version" "GET"
    ⟨200, "application/json", 18, some (.obj [("version", .str "1.0")]), ""⟩
    ⟨200, "application/json", 18, some (.obj [("version", .str "2.0")]), ""⟩
    (Or.inl rfl) (by decide)

/-- Helper: when every method of an endpoint hits a transport error, the inner
loop yields exactly one report line per method. -/
theorem runMethodList_all_requestError (env : NetEnv) (cd nd ep : String)
    (uk : Bool) (msgf : String → String) (ms : List String)
    (hv : ∀ m ∈ ms, m = "GET" ∨ m = "POST")
    (he : ∀ m ∈ ms, env uk ep m = .requestError (msgf m)) :
    runMethodList env cd nd ep uk ms =
      .ok (ms.map fun m => errorFetchingLine ep m (msgf m)) := by
  induction ms with
  | nil => rfl
  | cons m ms ih =>
    have h1 : env uk ep m = .requestError (msgf m) := he m (List.mem_cons_self m ms)
    have h2 : m = "GET" ∨ m = "POST" := hv m (List.mem_cons_self m ms)
    have h3 := ih (fun x hx => hv x (List.mem_cons_of_mem m hx))
      (fun x hx => he x (List.mem_cons_of_mem m hx))
    simp only [runMethodList, h1, compare_requestError cd nd ep m (msgf m) h2, h3,
      List.map_cons, List.cons_append, List.nil_append]

/-- C6: a transport failure for an endpoint/method pair is caught inside
`compare_responses` and reported as one line naming the endpoint and the
method, and the driver continues with the remaining endpoint entries: the
result for the tail is exactly what it would be on its own, so no transport
failure aborts the run. -/
theorem C6_transport_error_continues (env : NetEnv)
    (cd nd : String) (uk : Bool) (msgf : String → String)
    (info : EndpointInfo) (rest : List EndpointInfo)
    (hv : ∀ m ∈ infoMethods info, m = "GET" ∨ m = "POST")
    (he : ∀ m ∈ infoMethods info,
      env uk (infoEndpoint info) m = .requestError (msgf m)) :
    (∀ m, m = "GET" ∨ m = "POST" →
      compare_responses cd nd (infoEndpoint info) m (.requestError (msgf m)) =
        .ok [errorFetchingLine (infoEndpoint info) m (msgf m)]
      ∧ strHas (errorFetchingLine (infoEndpoint info) m (msgf m)) (infoEndpoint info) = true
      ∧ strHas (errorFetchingLine (infoEndpoint info) m (msgf m)) m = true)
    ∧ send_requests env cd nd uk (info :: rest) =
        (match send_requests env cd nd uk rest with
         | .error e => .error e
         | .ok ls =>
           .ok ((infoMethods info).map
             (fun m => errorFetchingLine (infoEndpoint info) m (msgf m)) ++ ls)) := by
  constructor
  · intro m hm
    refine ⟨compare_requestError cd nd (infoEndpoint info) m (msgf m) hm, ?_, ?_⟩
    · unfold errorFetchingLine
      apply strHas_append_left
      apply strHas_append_left
      apply strHas_append_left
      apply strHas_append_left
      apply strHas_append_right
      exact strHas_self _
    · unfold errorFetchingLine
      apply strHas_append_left
      apply strHas_append_left
      apply strHas_append_right
      exact strHas_self _
  · simp only [send_requests, runMethodList_all_requestError env cd nd
      (infoEndpoint info) uk msgf (infoMethods info) hv he]

/-- C6 witness: a timeout on both methods of the first error-test endpoint;
one line per method, and the tail of the list still runs. -/
theorem C6_transport_error_continues_witness :
    ((∀ m, m = "GET" ∨ m = "POST" →
      compare_responses "a.org" "b.org"
          (infoEndpoint (.tup "/nonexistent" ["GET", "POST"] (.obj []))) m
          (.requestError ("HTTPSConnectionPool timeout")) =
        .ok [errorFetchingLine (infoEndpoint (.tup "/nonexistent" ["GET", "POST"] (.obj []))) m
          ("HTTPSConnectionPool timeout")]
      ∧ strHas (errorFetchingLine (infoEndpoint (.tup "/nonexistent" ["GET", "POST"] (.obj []))) m
          ("HTTPSConnectionPool timeout"))
          (infoEndpoint (.tup "/nonexistent" ["GET", "POST"] (.obj []))) = true
      ∧ strHas (errorFetchingLine (infoEndpoint (.tup "/nonexistent" ["GET", "POST"] (.obj []))) m
          ("HTTPSConnectionPool timeout")) m = true)
    ∧ send_requests (fun _ _ _ => .requestError "HTTPSConnectionPool timeout")
        "a.org" "b.org" true
        [.tup "/nonexistent" ["GET", "POST"] (.obj []), .tup "/version" ["GET"] (.obj [])] =
        (match send_requests (fun _ _ _ => .requestError "HTTPSConnectionPool timeout")
            "a.org" "b.org" true [.tup "/version" ["GET"] (.obj [])] with
         | .error e => .error e
         | .ok ls =>
           .ok ((infoMethods (.tup "/nonexistent" ["GET", "POST"] (.obj []))).map
             (fun m => errorFetchingLine
               (infoEndpoint (.tup "/nonexistent" ["GET", "POST"] (.obj []))) m
               ("HTTPSConnectionPool timeout")) ++ ls))) :=
  C6_transport_error_continues (fun _ _ _ => .requestError "HTTPSConnectionPool timeout")
    "a.org" "b.org" true (fun _ => "HTTPSConnectionPool timeout")
    (.tup "/nonexistent" ["GET", "POST"] (.obj []))
    [.tup "/version" ["GET"] (.obj [])]
    (by decide) (fun m _ => rfl)

/-- Helper: Python equality of a value with a string holds only for that
string. -/
theorem pyEq_str_right (j : Json) (s t : String)
    (h : pyEq j (.str t) = true) (hj : j = .str s) : s = t := by
  subst hj
  simpa [pyEq] using h

/-- Helper: a value Python-equal to a string is that string. -/
theorem pyEq_eq_str (j : Json) (t : String) (h : pyEq j (.str t) = true) :
    j = .str t := by
  cases j <;> simp_all [pyEq]

/-- C5: a body that fails JSON parsing is substituted by the sentinel string
`"Not valid JSON"` rather than raising; the function still returns normally
(no exception escapes), and the equality comparison is performed on the
sentinel: when the sentinel differs from the other side's data the DIFF lines
are printed with the sentinel in place of the body. -/
theorem C5_sentinel_comparison (cd nd ep method : String) (cur new : Response)
    (hm : method = "GET" ∨ method = "POST")
    (hb : cur.json_result = none ∨ new.json_result = none) :
    (cur.json_result = none → pyData cur = .str "Not valid JSON")
    ∧ (new.json_result = none → pyData new = .str "Not valid JSON")
    ∧ (∃ lines, compare_responses cd nd ep method (.ok cur new) = .ok lines)
    ∧ (pyEq (pyData cur) (pyData new) = false →
        compare_responses cd nd ep method (.ok cur new) =
          .ok [bcolors.FAIL ++ "DIFF" ++ bcolors.ENDC ++ " " ++ method ++ " " ++ ep,
               "  Current (" ++ cd ++ "): " ++ toString cur.status_code ++ " " ++
                 pyStrTop (pyData cur),
               "  New (" ++ nd ++ "): " ++ toString new.status_code ++ " " ++
                 pyStrTop (pyData new)]) := by
  refine ⟨?_, ?_, ?_, fun hne => compare_diff cd nd ep method cur new hm hne⟩
  · intro h; simp [pyData, h]
  · intro h; simp [pyData, h]
  · by_cases hne : pyEq (pyData cur) (pyData new) = false
    · exact ⟨_, compare_diff cd nd ep method cur new hm hne⟩
    · have heq : pyEq (pyData cur) (pyData new) = true := by
        revert hne; cases pyEq (pyData cur) (pyData new) <;> simp
      unfold compare_responses
      rw [if_pos hm]
      simp only [heq]
      by_cases hc : 400 ≤ cur.status_code
      · rw [if_neg (by simp [heq]), if_pos hc]
        exact ⟨_, rfl⟩
      · rw [if_neg (by simp [heq]), if_neg hc]
        cases hcr : cur.json_result with
        | none => exact ⟨_, rfl⟩
        | some j =>
          cases hb with
          | inl h0 => rw [h0] at hcr; cases hcr
          | inr h0 =>
            have hjd : pyData new = .str "Not valid JSON" := by simp [pyData, h0]
            have hj : j = .str "Not valid JSON" := by
              apply pyEq_eq_str
              rw [← hjd]
              have : pyData cur = j := by simp [pyData, hcr]
              rw [← this]
              exact heq
            subst hj
            simp only [pyLen]
            exact ⟨_, by rw [if_neg (by decide)]⟩

/-- C5 witness: a 500 response whose body is an HTML error page (not JSON):
the sentinel stands in for the body and the comparison still returns
normally. -/
theorem C5_sentinel_comparison_witness :
    pyData ⟨500, "text/html", 21, none, "Expecting value: line 1 column 1 (char 0)"⟩ =
      .str "Not valid JSON"
    ∧ (∃ lines, compare_responses "a.org" "b.org" "/version" "GET"
        (.ok ⟨500, "text/html", 21, none, "Expecting value: line 1 column 1 (char 0)"⟩
             ⟨200, "application/json", 2, some (.obj []), ""⟩) = .ok lines) :=
  ⟨(C5_sentinel_comparison "a.org" "b.org" "/version" "GET"
      ⟨500, "text/html", 21, none, "Expecting value: line 1 column 1 (char 0)"⟩
      ⟨200, "application/json", 2, some (.obj []), ""⟩
      (Or.inl rfl) (Or.inl rfl)).1 rfl,
   (C5_sentinel_comparison "a.org" "b.org" "/version" "GET"
      ⟨500, "text/html", 21, none, "Expecting value: line 1 column 1 (char 0)"⟩
      ⟨200, "application/json", 2, some (.obj []), ""⟩
      (Or.inl rfl) (Or.inl rfl)).2.2.1⟩

/-- C1 (amended): for a pair with the same status code and Python-equal parsed
bodies, provided the shared body supports `len()` (string, list or mapping) or
the status is at least 400, a single SAME verdict line is printed containing
the shared status code; the code is rendered as a warning exactly when it is
at least 400, and flagged EMPTY exactly when the status is below 400 and the
parsed body is empty. -/
theorem C1_same_verdict (cd nd ep method : String) (cur new : Response)
    (s : Nat) (j1 j2 : Json)
    (hm : method = "GET" ∨ method = "POST")
    (hs1 : cur.status_code = s) (hs2 : new.status_code = s)
    (hb1 : cur.json_result = some j1) (hb2 : new.json_result = some j2)
    (heq : pyEq j1 j2 = true)
    (hlen : 400 ≤ s ∨ (pyLen j1).isSome = true) :
    ∃ colored_code,
      compare_responses cd nd ep method (.ok cur new) =
        .ok [bcolors.OKGREEN ++ "SAME" ++ bcolors.ENDC ++ " " ++ colored_code ++
             " " ++ method ++ " " ++ ep]
      ∧ strHas colored_code (toString s) = true
      ∧ (400 ≤ s → colored_code = bcolors.WARNING ++ toString s ++ bcolors.ENDC)
      ∧ (s < 400 → pyLen j1 = some 0 →
          colored_code = bcolors.WARNING ++ toString s ++ " EMPTY" ++ bcolors.ENDC)
      ∧ (s < 400 → ∀ n, pyLen j1 = some n → n ≠ 0 → colored_code = toString s) := by
  subst hs1
  have heq' : pyEq (pyData cur) (pyData new) = true := by
    simp [pyData, hb1, hb2, heq]
  unfold compare_responses
  rw [if_pos hm]
  simp only []
  rw [if_neg (by simp [heq'])]
  by_cases hc : 400 ≤ cur.status_code
  · rw [if_pos hc]
    refine ⟨bcolors.WARNING ++ toString cur.status_code ++ bcolors.ENDC,
      rfl, ?_, fun _ => rfl, ?_, ?_⟩
    · apply strHas_append_left
      apply strHas_append_right
      exact strHas_self _
    · intro h; omega
    · intro h; omega
  · rw [if_neg hc]
    simp only [hb1]
    have hn : ∃ n, pyLen j1 = some n := by
      cases hlen with
      | inl h => omega
      | inr h => exact Option.isSome_iff_exists.mp h
    obtain ⟨n, hpl⟩ := hn
    simp only [hpl]
    by_cases hz : n = 0
    · rw [if_pos hz]
      refine ⟨bcolors.WARNING ++ toString cur.status_code ++ " EMPTY" ++ bcolors.ENDC,
        rfl, ?_, fun h => absurd h hc, fun _ _ => rfl, ?_⟩
      · apply strHas_append_left
        apply strHas_append_left
        apply strHas_append_right
        exact strHas_self _
      · intro _ n' hn' hne
        obtain rfl : n = n' := by injection hn'
        exact absurd hz hne
    · rw [if_neg hz]
      refine ⟨toString cur.status_code, rfl, strHas_self _,
        fun h => absurd h hc, ?_, fun _ _ _ _ => rfl⟩
      intro _ h0
      obtain rfl : n = 0 := by injection h0
      exact absurd rfl hz

/-- C1 witness: identical 200 responses with a one-entry mapping body give the
plain SAME line; identical 404 responses give the warning-coloured code. -/
theorem C1_same_verdict_witness :
    (∃ colored_code,
      compare_responses "a.org" "b.org" "/version" "GET"
        (.ok ⟨200, "application/json", 18, some (.obj [("version", .str "1.0")]), ""⟩
             ⟨200, "application/json", 18, some (.obj [("version", .str "1.0")]), ""⟩) =
        .ok [bcolors.OKGREEN ++ "SAME" ++ bcolors.ENDC ++ " " ++ colored_code ++
             " " ++ "GET" ++ " " ++ "/version"]
      ∧ strHas colored_code (toString (200 : Nat)) = true
      ∧ (400 ≤ 200 → colored_code = bcolors.WARNING ++ toString (200 : Nat) ++ bcolors.ENDC)
      ∧ (200 < 400 → pyLen (.obj [("version", .str "1.0")]) = some 0 →
          colored_code = bcolors.WARNING ++ toString (200 : Nat) ++ " EMPTY" ++ bcolors.ENDC)
      ∧ (200 < 400 → ∀ n, pyLen (.obj [("version", .str "1.0")]) = some n → n ≠ 0 →
          colored_code = toString (200 : Nat))) :=
  C1_same_verdict "a.org" "b.org" "/version" "GET"
    ⟨200, "application/json", 18, some (.obj [("version", .str "1.0")]), ""⟩
    ⟨200, "application/json", 18, some (.obj [("version", .str "1.0")]), ""⟩
    200 (.obj [("version", .str "1.0")]) (.obj [("version", .str "1.0")])
    (Or.inl rfl) rfl rfl rfl rfl (by decide) (Or.inr (by decide))

/-- C1 counterexample to the claim as stated: two identical responses (same
status 200, structurally equal bodies — the scalar `7`) do NOT produce a SAME
line; `len(current_response.json())` raises an uncaught `TypeError` instead,
so `compare_responses` emits nothing and the exception escapes. -/
theorem C1_scalar_crash :
    compare_responses "a.org" "b.org" "/version" "GET"
      (.ok ⟨200, "application/json", 1, some (.num 7), ""⟩
           ⟨200, "application/json", 1, some (.num 7), ""⟩) =
      .error "TypeError: object of type 'int' has no len()"
    ∧ (compare_responses "a.org" "b.org" "/version" "GET"
        (.ok ⟨200, "application/json", 1, some (.num 7), ""⟩
             ⟨200, "application/json", 1, some (.num 7), ""⟩)).toOption = none := by
  constructor
  · rfl
  · rfl

/-- C3 (amended): body classification never consults the declared content-type
header: `compare_responses` reads only the status code and the JSON parse of
each body, so its entire output is invariant under changes to the
`Content-Type` header and to the raw byte length, and the raw byte length is
never printed. -/
theorem C3_content_type_ignored (cd nd ep method : String)
    (cur new : Response) (ct1 ct2 : String) (rl1 rl2 : Nat) :
    compare_responses cd nd ep method
      (.ok { cur with content_type := ct1, raw_len := rl1 }
           { new with content_type := ct2, raw_len := rl2 }) =
    compare_responses cd nd ep method (.ok cur new) := by
  cases cur
  cases new
  rfl

/-- C3 counterexample to the claim as stated: both responses declare
`Content-Type: text/plain`, yet their bodies ARE passed through JSON parsing —
the DIFF output renders the parsed mapping, not the raw byte length (18),
which appears nowhere in the output. -/
theorem C3_nonjson_still_parsed :
    compare_responses "a.org" "b.org" "/version" "GET"
      (.ok ⟨200, "text/plain", 18, some (.obj [("version", .str "1.0")]), ""⟩
           ⟨200, "text/plain", 16, some (.obj [("version", .str "2.0")]), ""⟩) =
      .ok [bcolors.FAIL ++ "DIFF" ++ bcolors.ENDC ++ " GET /version",
           "  Current (a.org): 200 \x7b'version': '1.0'\x7d",
           "  New (b.org): 200 \x7b'version': '2.0'\x7d"]
    ∧ strHas "  Current (a.org): 200 \x7b'version': '1.0'\x7d" "\x7b'version': '1.0'\x7d" = true
    ∧ strHas "  Current (a.org): 200 \x7b'version': '1.0'\x7d" "18" = false
    ∧ strHas "  New (b.org): 200 \x7b'version': '2.0'\x7d" "16" = false := by
  refine ⟨rfl, by decide, by decide, by decide⟩

/-- The long list body used to exhibit the absence of display truncation. -/
def longBody : Json := .arr (List.replicate 300 (.num 1))

/-- C4 (amended): no character budget exists: every DIFF line prints the
complete `str()` rendering of the parsed body, however long, with no
truncation and no omitted-character annotation. -/
theorem C4_full_rendering (cd nd ep method : String) (cur new : Response)
    (hm : method = "GET" ∨ method = "POST")
    (hne : pyEq (pyData cur) (pyData new) = false) :
    ∃ pre1 pre2,
      compare_responses cd nd ep method (.ok cur new) =
        .ok [bcolors.FAIL ++ "DIFF" ++ bcolors.ENDC ++ " " ++ method ++ " " ++ ep,
             pre1 ++ pyStrTop (pyData cur),
             pre2 ++ pyStrTop (pyData new)] :=
  ⟨"  Current (" ++ cd ++ "): " ++ toString cur.status_code ++ " ",
   "  New (" ++ nd ++ "): " ++ toString new.status_code ++ " ",
   compare_diff cd nd ep method cur new hm hne⟩

/-- C4 witness: a DIFF between a 300-element list body and an empty list body
prints the full 900-character rendering of the former. -/
theorem C4_full_rendering_witness :
    pyEq (pyData ⟨200, "application/json", 900, some longBody, ""⟩)
         (pyData ⟨200, "application/json", 2, some (.arr []), ""⟩) = false
    ∧ ∃ pre1 pre2,
      compare_responses "a.org" "b.org" "/v2/node" "GET"
        (.ok ⟨200, "application/json", 900, some longBody, ""⟩
             ⟨200, "application/json", 2, some (.arr []), ""⟩) =
        .ok [bcolors.FAIL ++ "DIFF" ++ bcolors.ENDC ++ " " ++ "GET" ++ " " ++ "/v2/node",
             pre1 ++ pyStrTop (pyData ⟨200, "application/json", 900, some longBody, ""⟩),
             pre2 ++ pyStrTop (pyData ⟨200, "application/json", 2, some (.arr []), ""⟩)] :=
  ⟨by decide,
   C4_full_rendering "a.org" "b.org" "/v2/node" "GET"
     ⟨200, "application/json", 900, some longBody, ""⟩
     ⟨200, "application/json", 2, some (.arr []), ""⟩
     (Or.inl rfl) (by decide)⟩

/-- C4 counterexample to the claim as stated: the 900-character rendering of
the 300-element list body exceeds any plausible display budget, yet the DIFF
line carries it whole — the printed rendering is the untruncated `str()` of
the body, with no omitted-character annotation anywhere in the line. -/
theorem C4_no_truncation :
    compare_responses "a.org" "b.org" "/v2/node" "GET"
      (.ok ⟨200, "application/json", 900, some longBody, ""⟩
           ⟨200, "application/json", 2, some (.arr []), ""⟩) =
      .ok [bcolors.FAIL ++ "DIFF" ++ bcolors.ENDC ++ " GET /v2/node",
           "  Current (a.org): 200 " ++ pyRepr longBody,
           "  New (b.org): 200 []"]
    ∧ (pyRepr longBody).length = 900
    ∧ strHas ("  Current (a.org): 200 " ++ pyRepr longBody) "omitted" = false
    ∧ strHas ("  Current (a.org): 200 " ++ pyRepr longBody) "truncated" = false := by
  refine ⟨rfl, by decide, by decide, by decide⟩

/-- The flat, ordered sequence of (endpoint, method) request pairs an endpoint
list gives rise to: list order first, declared method order within an
entry. -/
def pairList (infos : List EndpointInfo) : List (String × String) :=
  infos.flatMap fun info => (infoMethods info).map fun m => (infoEndpoint info, m)

/-- Strictly sequential reference driver: one request pair at a time, in the
given order. -/
def runPairsOneAtATime (env : NetEnv) (cd nd : String) (uk : Bool) :
    List (String × String) → Except String (List String)
  | [] => .ok []
  | (e, m) :: rest =>
    match compare_responses cd nd e m (env uk e m) with
    | .error err => .error err
    | .ok ls =>
      match runPairsOneAtATime env cd nd uk rest with
      | .error err => .error err
      | .ok ls' => .ok (ls ++ ls')

/-- Helper: the sequential reference driver distributes over list append. -/
theorem runPairsOneAtATime_append (env : NetEnv) (cd nd : String) (uk : Bool)
    (xs ys : List (String × String)) :
    runPairsOneAtATime env cd nd uk (xs ++ ys) =
      (match runPairsOneAtATime env cd nd uk xs with
       | .error err => .error err
       | .ok ls =>
         match runPairsOneAtATime env cd nd uk ys with
         | .error err => .error err
         | .ok ls' => .ok (ls ++ ls')) := by
  induction xs with
  | nil =>
    simp only [List.nil_append, runPairsOneAtATime]
    cases runPairsOneAtATime env cd nd uk ys <;> simp
  | cons p ps ih =>
    obtain ⟨e, m⟩ := p
    simp only [List.cons_append, runPairsOneAtATime, List.append_eq]
    cases compare_responses cd nd e m (env uk e m) with
    | error err => rfl
    | ok ls =>
      rw [ih]
      cases runPairsOneAtATime env cd nd uk ps with
      | error err => rfl
      | ok ls1 =>
        cases runPairsOneAtATime env cd nd uk ys with
        | error err => rfl
        | ok ls2 => simp [List.append_assoc]

/-- Helper: the inner method loop is the sequential driver on that endpoint's
pairs. -/
theorem runMethodList_eq_runPairs (env : NetEnv) (cd nd ep : String) (uk : Bool)
    (ms : List String) :
    runMethodList env cd nd ep uk ms =
      runPairsOneAtATime env cd nd uk (ms.map fun m => (ep, m)) := by
  induction ms with
  | nil => rfl
  | cons m ms ih => simp only [runMethodList, List.map_cons, runPairsOneAtATime, ih]

/-- C9: the driver is strictly sequential and its output order is exactly the
input order: `send_requests` coincides with the reference driver that
processes the flat (endpoint, method) pair list one pair at a time, endpoint
entries in input-list order and methods in declared order.  Both sides are
pure functions of the endpoint list and the network environment, so the
emitted line sequence is deterministic. -/
theorem C9_sequential_order (env : NetEnv) (cd nd : String) (uk : Bool)
    (infos : List EndpointInfo) :
    send_requests env cd nd uk infos =
      runPairsOneAtATime env cd nd uk (pairList infos) := by
  induction infos with
  | nil => rfl
  | cons info rest ih =>
    have h1 : pairList (info :: rest) =
        ((infoMethods info).map fun m => (infoEndpoint info, m)) ++ pairList rest := by
      simp [pairList, List.flatMap_cons]
    rw [h1, runPairsOneAtATime_append, ← runMethodList_eq_runPairs, ← ih]
    rfl

/-- A fetch outcome that cannot trip the `len()` call of line 447: whenever
the two data values are equal and the current status is below 400, the current
body either failed to parse (the re-raised decode error is caught) or parsed
to a value supporting `len()`. -/
def lenCheckSafe : FetchOutcome → Prop
  | .requestError _ => True
  | .ok cur _new =>
    pyEq (pyData cur) (pyData _new) = true → cur.status_code < 400 →
      ∀ j, cur.json_result = some j → (pyLen j).isSome = true

/-- Helper: under a safe fetch outcome and a valid method, `compare_responses`
returns normally. -/
theorem compare_responses_ok (cd nd ep m : String) (fr : FetchOutcome)
    (hm : m = "GET" ∨ m = "POST") (hs : lenCheckSafe fr) :
    ∃ ls, compare_responses cd nd ep m fr = .ok ls := by
  cases fr with
  | requestError e => exact ⟨_, compare_requestError cd nd ep m e hm⟩
  | ok cur new =>
    by_cases hne : pyEq (pyData cur) (pyData new) = false
    · exact ⟨_, compare_diff cd nd ep m cur new hm hne⟩
    · have heq : pyEq (pyData cur) (pyData new) = true := by
        revert hne; cases pyEq (pyData cur) (pyData new) <;> simp
      unfold compare_responses
      rw [if_pos hm]
      simp only []
      rw [if_neg (by simp [heq])]
      by_cases hc : 400 ≤ cur.status_code
      · rw [if_pos hc]
        exact ⟨_, rfl⟩
      · rw [if_neg hc]
        cases hcr : cur.json_result with
        | none => exact ⟨_, rfl⟩
        | some j =>
          have := hs heq (by omega) j hcr
          obtain ⟨n, hn⟩ := Option.isSome_iff_exists.mp this
          simp only [hn]
          by_cases hz : n = 0
          · rw [if_pos hz]; exact ⟨_, rfl⟩
          · rw [if_neg hz]; exact ⟨_, rfl⟩

/-- Every method declared by an endpoint list entry is GET or POST. -/
def methodsOk (infos : List EndpointInfo) : Bool :=
  infos.all fun info => (infoMethods info).all fun m => m == "GET" || m == "POST"

/-- Helper: the inner loop returns normally when all its methods are valid and
the environment is safe. -/
theorem runMethodList_ok (env : NetEnv) (cd nd ep : String) (uk : Bool)
    (ms : List String)
    (hv : ∀ m ∈ ms, m = "GET" ∨ m = "POST")
    (hs : ∀ b e m, lenCheckSafe (env b e m)) :
    ∃ ls, runMethodList env cd nd ep uk ms = .ok ls := by
  induction ms with
  | nil => exact ⟨[], rfl⟩
  | cons m ms ih =>
    obtain ⟨ls1, h1⟩ := compare_responses_ok cd nd ep m (env uk ep m)
      (hv m (List.mem_cons_self m ms)) (hs uk ep m)
    obtain ⟨ls2, h2⟩ := ih fun x hx => hv x (List.mem_cons_of_mem m hx)
    exact ⟨ls1 ++ ls2, by simp only [runMethodList, h1, h2]⟩

/-- Helper: the outer loop returns normally when every entry's methods are
valid and the environment is safe. -/
theorem send_requests_ok (env : NetEnv) (cd nd : String) (uk : Bool)
    (infos : List EndpointInfo)
    (hv : methodsOk infos = true)
    (hs : ∀ b e m, lenCheckSafe (env b e m)) :
    ∃ ls, send_requests env cd nd uk infos = .ok ls := by
  induction infos with
  | nil => exact ⟨[], rfl⟩
  | cons info rest ih =>
    simp only [methodsOk, List.all_cons, Bool.and_eq_true, List.all_eq_true] at hv
    obtain ⟨ls1, h1⟩ := runMethodList_ok env cd nd (infoEndpoint info) uk
      (infoMethods info)
      (fun m hm => by
        have := hv.1 m hm
        revert this
        simp only [Bool.or_eq_true, beq_iff_eq]
        exact id)
      hs
    obtain ⟨ls2, h2⟩ := ih (by
      simp only [methodsOk, List.all_eq_true]
      exact hv.2)
    exact ⟨ls1 ++ ls2, by simp only [send_requests, h1, h2]⟩

/-- C8 (amended): the run completes with exit code 0 whatever the individual
comparison outcomes (SAME, DIFF or per-endpoint transport error), provided no
equal-bodied sub-400 pair carries a scalar JSON body; the `len()` call of
line 447 is the sole uncaught-exception path out of the comparison loop (the
other non-zero exits being malformed command-line arguments, which argparse
handles before `main`). -/
theorem C8_exit_zero_when_len_safe (env : NetEnv) (cd nd : String)
    (hs : ∀ b e m, lenCheckSafe (env b e m)) :
    ∃ lines, mainRun env cd nd = .ok lines
      ∧ processExitCode (mainRun env cd nd) = 0 := by
  have hv1 : methodsOk ENDPOINTS = true := by decide
  have hv2 : methodsOk ERROR_TESTS = true := by decide
  obtain ⟨l1, h1⟩ := send_requests_ok env cd nd true ENDPOINTS hv1 hs
  obtain ⟨l2, h2⟩ := send_requests_ok env cd nd false ENDPOINTS hv1 hs
  obtain ⟨l3, h3⟩ := send_requests_ok env cd nd true ERROR_TESTS hv2 hs
  refine ⟨["", bcolors.BOLD ++ "With API key" ++ bcolors.ENDC] ++ l1 ++
          ["", bcolors.BOLD ++ "Without API key" ++ bcolors.ENDC] ++ l2 ++
          ["", bcolors.BOLD ++ "Error tests" ++ bcolors.ENDC] ++ l3, ?_, ?_⟩
  · unfold mainRun
    simp only [USE_NEW_ENDPOINTS_ONLY, Bool.false_eq_true, if_false, h1, h2, h3]
  · unfold processExitCode mainRun
    simp only [USE_NEW_ENDPOINTS_ONLY, Bool.false_eq_true, if_false, h1, h2, h3]

/-- C8 witness: with every request pair ending in a timeout (caught and
reported per endpoint), the whole run still exits 0. -/
theorem C8_exit_zero_when_len_safe_witness :
    ∃ lines, mainRun (fun _ _ _ => .requestError "timed out") "a.org" "b.org" = .ok lines
      ∧ processExitCode (mainRun (fun _ _ _ => .requestError "timed out") "a.org" "b.org") = 0 :=
  C8_exit_zero_when_len_safe (fun _ _ _ => .requestError "timed out") "a.org" "b.org"
    (fun _ _ _ => trivial)

/-- C8 counterexample to the claim as stated: an environment where both
domains answer every request with status 200 and the JSON body `null` makes
the very first comparison raise an uncaught `TypeError` (`len(None)`), so the
process exits non-zero even though no argument was malformed. -/
theorem C8_scalar_body_crash :
    mainRun (fun _ _ _ => .ok ⟨200, "application/json", 4, some .null, ""⟩
                             ⟨200, "application/json", 4, some .null, ""⟩) "a.org" "b.org" =
      .error "TypeError: object of type 'NoneType' has no len()"
    ∧ processExitCode (mainRun (fun _ _ _ =>
        .ok ⟨200, "application/json", 4, some .null, ""⟩
            ⟨200, "application/json", 4, some .null, ""⟩) "a.org" "b.org") = 1 := by
  constructor
  · rfl
  · rfl

/-- Helper: `in` on a dictionary entry is total and agrees with `pyInBool`. -/
theorem pyIn_obj (k : String) (kvs : List (String × Json)) :
    pyIn k (.obj kvs) = .ok (pyInBool k (.obj kvs)) := rfl

/-- Helper: validation succeeds when every entry is a dictionary carrying both
required fields. -/
theorem validateEntries_ok (entries : List Json)
    (hall : ∀ e ∈ entries, ∃ kvs, e = Json.obj kvs)
    (hfields : ∀ e ∈ entries,
      pyInBool "test_name" e = true ∧ pyInBool "path" e = true) :
    validateEntries entries = .ok () := by
  induction entries with
  | nil => rfl
  | cons r rest ih =>
    obtain ⟨kvs, rfl⟩ := hall r (List.mem_cons_self r rest)
    obtain ⟨h1, h2⟩ := hfields _ (List.mem_cons_self _ rest)
    simp only [validateEntries, pyIn_obj, h1, h2]
    simp only [Bool.true_eq_false, if_false]
    exact ih (fun e he => hall e (List.mem_cons_of_mem _ he))
      (fun e he => hfields e (List.mem_cons_of_mem _ he))

/-- Helper: validation raises the `ValueError` of the first entry missing a
required field. -/
theorem validateEntries_missing (entries : List Json)
    (hall : ∀ e ∈ entries, ∃ kvs, e = Json.obj kvs)
    (hbad : ∃ e ∈ entries,
      pyInBool "test_name" e = false ∨ pyInBool "path" e = false) :
    ∃ r ∈ entries,
      (pyInBool "test_name" r = false ∨ pyInBool "path" r = false)
      ∧ validateEntries entries = .error (valueErrorMsg r) := by
  induction entries with
  | nil => obtain ⟨e, he, _⟩ := hbad; cases he
  | cons r rest ih =>
    obtain ⟨kvs, hr⟩ := hall r (List.mem_cons_self r rest)
    by_cases hname : pyInBool "test_name" r = false
    · refine ⟨r, List.mem_cons_self r rest, Or.inl hname, ?_⟩
      subst hr
      simp only [validateEntries, pyIn_obj, hname]
      rfl
    · have hname' : pyInBool "test_name" r = true := by
        revert hname; cases pyInBool "test_name" r <;> simp
      by_cases hpath : pyInBool "path" r = false
      · refine ⟨r, List.mem_cons_self r rest, Or.inr hpath, ?_⟩
        subst hr
        simp only [validateEntries, pyIn_obj, hname', hpath]
        simp only [Bool.true_eq_false, if_false, if_pos]
      · have hpath' : pyInBool "path" r = true := by
          revert hpath; cases pyInBool "path" r <;> simp
        have hbadrest : ∃ e ∈ rest,
            pyInBool "test_name" e = false ∨ pyInBool "path" e = false := by
          obtain ⟨e, he, hbe⟩ := hbad
          cases List.mem_cons.mp he with
          | inl h0 =>
            subst h0
            cases hbe with
            | inl h => rw [hname'] at h; cases h
            | inr h => rw [hpath'] at h; cases h
          | inr h0 => exact ⟨e, h0, hbe⟩
        obtain ⟨r', hr', hbr', hval⟩ := ih
          (fun e he => hall e (List.mem_cons_of_mem _ he)) hbadrest
        refine ⟨r', List.mem_cons_of_mem _ hr', hbr', ?_⟩
        subst hr
        simp only [validateEntries, pyIn_obj, hname', hpath']
        simp only [Bool.true_eq_false, if_false]
        exact hval

/-- Helper: when every file parses to a list of dictionaries and some file
holds an entry missing a required field, the loader raises that entry's
`ValueError`. -/
theorem loadFiles_validation_error (fs : FileSys) (paths : List String)
    (acc : List Json)
    (hgood : ∀ p ∈ paths, ∃ entries, fs p = .parsed (.arr entries)
      ∧ ∀ e ∈ entries, ∃ kvs, e = Json.obj kvs)
    (hbad : ∃ p ∈ paths, ∃ entries, fs p = .parsed (.arr entries)
      ∧ ∃ e ∈ entries,
        pyInBool "test_name" e = false ∨ pyInBool "path" e = false) :
    ∃ r, (pyInBool "test_name" r = false ∨ pyInBool "path" r = false)
      ∧ loadFiles fs paths acc = .error (valueErrorMsg r) := by
  induction paths generalizing acc with
  | nil => obtain ⟨p, hp, _⟩ := hbad; cases hp
  | cons p rest ih =>
    obtain ⟨entries, hfs, hobj⟩ := hgood p (List.mem_cons_self p rest)
    by_cases hbadhead : ∃ e ∈ entries,
        pyInBool "test_name" e = false ∨ pyInBool "path" e = false
    · obtain ⟨r, _, hbr, hval⟩ := validateEntries_missing entries hobj hbadhead
      refine ⟨r, hbr, ?_⟩
      simp only [loadFiles, hfs, pyIterate, hval]
    · have hfields : ∀ e ∈ entries,
          pyInBool "test_name" e = true ∧ pyInBool "path" e = true := by
        intro e he
        constructor
        · by_contra h
          exact hbadhead ⟨e, he, Or.inl (by revert h; cases pyInBool "test_name" e <;> simp)⟩
        · by_contra h
          exact hbadhead ⟨e, he, Or.inr (by revert h; cases pyInBool "path" e <;> simp)⟩
      have hbadrest : ∃ p' ∈ rest, ∃ entries', fs p' = .parsed (.arr entries')
          ∧ ∃ e ∈ entries',
            pyInBool "test_name" e = false ∨ pyInBool "path" e = false := by
        obtain ⟨p', hp', entries', hfs', e, he', hbe'⟩ := hbad
        cases List.mem_cons.mp hp' with
        | inl h0 =>
          subst h0
          rw [hfs] at hfs'
          have : entries = entries' := by
            have h1 : Json.arr entries = Json.arr entries' := by
              injection hfs'
            injection h1
          subst this
          exact absurd ⟨e, he', hbe'⟩ hbadhead
        | inr h0 => exact ⟨p', h0, entries', hfs', e, he', hbe'⟩
      obtain ⟨r, hbr, hval⟩ := ih (acc ++ entries)
        (fun q hq => hgood q (List.mem_cons_of_mem _ hq)) hbadrest
      refine ⟨r, hbr, ?_⟩
      simp only [loadFiles, hfs, pyIterate, validateEntries_ok entries hobj hfields]
      exact hval

/-- C7: when a descriptor file's entry lacks `test_name` or `path`, loading
raises the `ValueError` naming both required fields, the shared request list
stays empty, and consequently no task iteration executes any request at
all. -/
theorem C7_descriptor_validation (files : String) (fs : FileSys)
    (hne : ¬ files = "")
    (hgood : ∀ p ∈ splitCommas files, ∃ entries, fs p = .parsed (.arr entries)
      ∧ ∀ e ∈ entries, ∃ kvs, e = Json.obj kvs)
    (hbad : ∃ p ∈ splitCommas files, ∃ entries, fs p = .parsed (.arr entries)
      ∧ ∃ e ∈ entries,
        pyInBool "test_name" e = false ∨ pyInBool "path" e = false) :
    ∃ r, (pyInBool "test_name" r = false ∨ pyInBool "path" r = false)
      ∧ load_test_requests files fs = .error (valueErrorMsg r)
      ∧ strHas (valueErrorMsg r) "test_name" = true
      ∧ strHas (valueErrorMsg r) "path" = true
      ∧ test_start_shared files fs = []
      ∧ ∀ v, run_latency_tests v (test_start_shared files fs) = [] := by
  obtain ⟨r, hbr, hval⟩ := loadFiles_validation_error fs (splitCommas files) []
    hgood hbad
  have hload : load_test_requests files fs = .error (valueErrorMsg r) := by
    unfold load_test_requests
    rw [if_neg hne]
    exact hval
  have hshared : test_start_shared files fs = [] := by
    unfold test_start_shared
    rw [hload]
  refine ⟨r, hbr, hload, ?_, ?_, hshared, ?_⟩
  · unfold valueErrorMsg
    apply strHas_append_left
    apply strHas_append_left
    decide
  · unfold valueErrorMsg
    apply strHas_append_left
    apply strHas_append_right
    decide
  · intro v
    rw [hshared]
    rfl

/-- File system for the C7 witness: one descriptor file whose single entry has
a `test_name` but no `path`. -/
def witnessFS : FileSys := fun p =>
  if p = "requests/node_requests.json"
  then .parsed (.arr [.obj [("test_name", .str "nodes_basic")]])
  else .missing

/-- C7 witness: loading the concrete malformed descriptor raises the
`ValueError` naming both fields and leaves the shared request list empty. -/
theorem C7_descriptor_validation_witness :
    ∃ r, (pyInBool "test_name" r = false ∨ pyInBool "path" r = false)
      ∧ load_test_requests "requests/node_requests.json" witnessFS =
          .error (valueErrorMsg r)
      ∧ strHas (valueErrorMsg r) "test_name" = true
      ∧ strHas (valueErrorMsg r) "path" = true
      ∧ test_start_shared "requests/node_requests.json" witnessFS = []
      ∧ ∀ v, run_latency_tests v
          (test_start_shared "requests/node_requests.json" witnessFS) = [] := by
  have hsplit : splitCommas "requests/node_requests.json" =
      ["requests/node_requests.json"] := rfl
  refine C7_descriptor_validation "requests/node_requests.json" witnessFS
    (by decide) ?_ ?_
  · intro p hp
    rw [hsplit] at hp
    rw [List.mem_singleton] at hp
    subst hp
    refine ⟨[.obj [("test_name", .str "nodes_basic")]], rfl, ?_⟩
    intro e he
    rw [List.mem_singleton] at he
    subst he
    exact ⟨_, rfl⟩
  · refine ⟨"requests/node_requests.json", ?_, [.obj [("test_name", .str "nodes_basic")]],
      rfl, .obj [("test_name", .str "nodes_basic")], ?_, Or.inr (by decide)⟩
    · rw [hsplit]; exact List.mem_singleton.mpr rfl
    · exact List.mem_singleton.mpr rfl

/-- Helper: reading the freshly written cell gives the written value. -/
theorem deref_write_concat_self (h : Heap) (v x : Json) :
    (Heap.write ⟨h.cells ++ [v]⟩ h.cells.length x).deref h.cells.length = x := by
  simp only [Heap.write, Heap.deref, List.getD_eq_getElem?_getD]
  rw [List.getElem?_set_eq_of_lt x (by simp)]
  rfl

/-- Helper: writing the freshly allocated cell leaves existing cells alone. -/
theorem deref_write_concat_other (h : Heap) (v x : Json) (r : Nat)
    (hr : r < h.cells.length) :
    (Heap.write ⟨h.cells ++ [v]⟩ h.cells.length x).deref r = h.deref r := by
  simp only [Heap.write, Heap.deref, List.getD_eq_getElem?_getD]
  rw [List.getElem?_set_ne (by omega), List.getElem?_append_left hr]

/-- Helper: reading the freshly allocated cell gives the allocated value. -/
theorem deref_concat_self (h : Heap) (v : Json) :
    Heap.deref ⟨h.cells ++ [v]⟩ h.cells.length = v := by
  simp only [Heap.deref, List.getD_eq_getElem?_getD, List.getElem?_concat_length]
  rfl

/-- Helper: allocation leaves existing cells alone. -/
theorem deref_concat_other (h : Heap) (v : Json) (r : Nat)
    (hr : r < h.cells.length) :
    Heap.deref ⟨h.cells ++ [v]⟩ r = h.deref r := by
  simp only [Heap.deref, List.getD_eq_getElem?_getD, List.getElem?_append_left hr]

/-- C10: the caller's `params` dictionary is never mutated by a call to
`compare_responses`: on GET the API key is injected into a fresh deep copy of
the dictionary (the copy, key added, is what both requests send), on POST the
credential travels as the `x-api-key` header while `params` is passed through
by reference unchanged — the heap is returned exactly as given.  In every
case the cell the caller passed still holds its original value afterwards. -/
theorem C10_params_not_mutated (cd nd ep key : String) (h : Heap) (r : Nat)
    (hr : r < h.cells.length) :
    (∃ h2, request_phase cd nd ep key true "GET" (some r) h =
        .ok (h2, .get ("https://" ++ cd ++ ep)
                   (dictSetItem (h.deref r) "key" (.str key)),
                 .get ("https://" ++ nd ++ ep)
                   (dictSetItem (h.deref r) "key" (.str key)))
      ∧ h2.deref r = h.deref r)
    ∧ (∃ h2, request_phase cd nd ep key false "GET" (some r) h =
        .ok (h2, .get ("https://" ++ cd ++ ep) (h.deref r),
                 .get ("https://" ++ nd ++ ep) (h.deref r))
      ∧ h2.deref r = h.deref r)
    ∧ (∀ uk, request_phase cd nd ep key uk "POST" (some r) h =
        .ok (h, .post ("https://" ++ cd ++ ep) (some (h.deref r))
                  (if uk then [("x-api-key", key)] else []),
                .post ("https://" ++ nd ++ ep) (some (h.deref r))
                  (if uk then [("x-api-key", key)] else []))) := by
  refine ⟨⟨Heap.write ⟨h.cells ++ [h.deref r]⟩ h.cells.length
      (dictSetItem (Heap.deref ⟨h.cells ++ [h.deref r]⟩ h.cells.length) "key" (.str key)),
      ?_, ?_⟩,
    ⟨⟨h.cells ++ [h.deref r]⟩, ?_, ?_⟩, ?_⟩
  · unfold request_phase
    rw [if_pos rfl]
    simp only [Heap.alloc, if_true]
    rw [deref_write_concat_self, deref_concat_self]
  · exact deref_write_concat_other h _ _ r hr
  · unfold request_phase
    rw [if_pos rfl]
    simp only [Heap.alloc, Bool.false_eq_true, if_false]
    rw [deref_concat_self]
  · exact deref_concat_other h _ r hr
  · intro uk
    unfold request_phase
    rw [if_neg (by decide), if_pos rfl]
    rfl

/-- C10 witness: a one-cell heap holding the `/bulk/stats` payload: the GET
copy receives the key, the POST passes the dictionary through, and cell 0 is
unchanged in both cases. -/
theorem C10_params_not_mutated_witness :
    (∃ h2, request_phase "a.org" "b.org" "/bulk/stats" "k123" true "GET" (some 0)
        ⟨[.obj [("stats_var", .str "Count_Person_Male")]]⟩ =
        .ok (h2, .get ("https://" ++ "a.org" ++ "/bulk/stats")
                   (dictSetItem (Heap.deref ⟨[.obj [("stats_var", .str "Count_Person_Male")]]⟩ 0)
                     "key" (.str "k123")),
                 .get ("https://" ++ "b.org" ++ "/bulk/stats")
                   (dictSetItem (Heap.deref ⟨[.obj [("stats_var", .str "Count_Person_Male")]]⟩ 0)
                     "key" (.str "k123")))
      ∧ h2.deref 0 = Heap.deref ⟨[.obj [("stats_var", .str "Count_Person_Male")]]⟩ 0)
    ∧ (∃ h2, request_phase "a.org" "b.org" "/bulk/stats" "k123" false "GET" (some 0)
        ⟨[.obj [("stats_var", .str "Count_Person_Male")]]⟩ =
        .ok (h2, .get ("https://" ++ "a.org" ++ "/bulk/stats")
                   (Heap.deref ⟨[.obj [("stats_var", .str "Count_Person_Male")]]⟩ 0),
                 .get ("https://" ++ "b.org" ++ "/bulk/stats")
                   (Heap.deref ⟨[.obj [("stats_var", .str "Count_Person_Male")]]⟩ 0))
      ∧ h2.deref 0 = Heap.deref ⟨[.obj [("stats_var", .str "Count_Person_Male")]]⟩ 0)
    ∧ (∀ uk, request_phase "a.org" "b.org" "/bulk/stats" "k123" uk "POST" (some 0)
        ⟨[.obj [("stats_var", .str "Count_Person_Male")]]⟩ =
        .ok (⟨[.obj [("stats_var", .str "Count_Person_Male")]]⟩,
             .post ("https://" ++ "a.org" ++ "/bulk/stats")
               (some (Heap.deref ⟨[.obj [("stats_var", .str "Count_Person_Male")]]⟩ 0))
               (if uk then [("x-api-key", "k123")] else []),
             .post ("https://" ++ "b.org" ++ "/bulk/stats")
               (some (Heap.deref ⟨[.obj [("stats_var", .str "Count_Person_Male")]]⟩ 0))
               (if uk then [("x-api-key", "k123")] else []))) :=
  C10_params_not_mutated "a.org" "b.org" "/bulk/stats" "k123"
    ⟨[.obj [("stats_var", .str "Count_Person_Male")]]⟩ 0 (by decide)
